import Mathlib

/-!
Shallow embedding of `fabfile.py` (alaasalman/deployer): an idempotent
remote-provisioning orchestrator built on fabric.  Tasks issue remote
commands through a fake RemoteExecutor whose state (`RState`) persists
across invocations; every task returns the mutated execution context,
the mutated target state, the list of remote operations issued, the log
lines printed, and an optional fatal error (fabric's `abort`/`require`).
-/

namespace Deployer

/-- fabric's process-wide `env` as used by fabfile.py: the profile key
(`env.config_key`), the load-once flag (`env.config_loaded`, fabfile.py
line 18) and the merged configuration key/value pairs. -/
@[ext]
structure Ctx where
  config_key : Option String
  config_loaded : Bool
  vars : String → Option String

/-- Fake remote-target state for the RemoteExecutor: which paths exist,
which users exist, user/group memberships, text-file contents (lines),
and which apt packages are installed. -/
@[ext]
structure RState where
  paths : String → Bool
  users : String → Bool
  member : String → String → Bool
  files : String → List String
  pkgs : String → Bool

/-- The `conf.json` configuration file as seen by `loadconfig`: missing,
unparsable as JSON, or parsed into profile-name → key/value pairs. -/
inductive ConfFile where
  | missing : ConfFile
  | unparsable : ConfFile
  | parsed : List (String × List (String × String)) → ConfFile
deriving DecidableEq

/-- Fatal configuration failures: fabric `require` on a missing env key,
`abort` on a missing conf.json, a JSON parse failure, and `abort` on a
profile key absent from the document (spec's `ConfigurationError` kinds). -/
inductive ConfigError where
  | missingRequired : String → ConfigError
  | missingFile : ConfigError
  | malformed : ConfigError
  | missingProfile : ConfigError
deriving DecidableEq

/-- The concrete `sudo(...)` shell commands fabfile.py issues, with the
exact format-string arguments of the source. -/
inductive Cmd where
  | adduser : String → Cmd
  | adduserGroup : String → String → Cmd
  | adduserDisabledLogin : String → Cmd
  | mkdir : String → Cmd
  | chown : String → String → Cmd
  | chmod : String → Cmd
  | serviceRestart : String → Cmd
  | aptUpdate : Cmd
  | aptInstall : String → Cmd
  | runFile : String → Cmd
  | sshKeygen : String → Cmd
  | catFile : String → Cmd
  | curl : String → String → Cmd
  | createuser : String → Cmd
  | createdb : String → Cmd
deriving DecidableEq

/-- The exact command string each `sudo(...)` call interpolates in the
source (fabfile.py lines 32, 75, 82-83, 106-111, 131, 156-157, 200,
221-249). -/
def Cmd.render : Cmd → String
  | .adduser u => "adduser " ++ u ++ " --disabled-password --gecos \"\""
  | .adduserGroup u g => "adduser " ++ u ++ " " ++ g
  | .adduserDisabledLogin u =>
      "adduser " ++ u ++ " --disabled-password --disabled-login --gecos \"\""
  | .mkdir p => "mkdir " ++ p
  | .chown spec p => "chown -R " ++ spec ++ " " ++ p
  | .chmod args => "chmod " ++ args
  | .serviceRestart s => "service " ++ s ++ " restart"
  | .aptUpdate => "apt update"
  | .aptInstall p => "apt --yes install " ++ p
  | .runFile p => p
  | .sshKeygen f => "ssh-keygen -f \"" ++ f ++ "\" -t rsa -N \"\""
  | .catFile p => "cat " ++ p
  | .curl url out => "curl " ++ url ++ " -o " ++ out
  | .createuser u => "createuser " ++ u ++ " --pwprompt"
  | .createdb n => "createdb " ++ n ++ " --owner=" ++ n

/-- A remote operation issued through fabric: `sudo`, `append` (idempotent
line append, creates the file), `sed` (in-place line substitution), `put`
(upload into a directory).  `exists` checks are side-effect-free queries
and are not recorded. -/
inductive Op where
  | sudoRun : Cmd → Op
  | appendFile : String → String → Op
  | sedFile : String → String → String → Op
  | putFile : String → String → Op
deriving DecidableEq

/-- Point update of a boolean-valued map (set membership). -/
def setTrue (f : String → Bool) (p : String) : String → Bool :=
  fun q => if q = p then true else f q

/-- Fake-executor effect of a `sudo` shell command on the target state:
`adduser` creates the user and its home directory, `mkdir` creates a
path, `apt install` registers a package, `ssh-keygen`/`curl` create their
output file; the rest (chmod, chown, service restart, apt update, running
the firewall script, cat, createuser/createdb against postgres) leave the
modelled state unchanged. -/
def Cmd.apply (c : Cmd) (st : RState) : RState :=
  match c with
  | .adduser u =>
      { st with users := setTrue st.users u,
                paths := setTrue st.paths ("/home/" ++ u) }
  | .adduserDisabledLogin u =>
      { st with users := setTrue st.users u,
                paths := setTrue st.paths ("/home/" ++ u) }
  | .adduserGroup u g =>
      { st with member := fun a b => if a = u && b = g then true else st.member a b }
  | .mkdir p => { st with paths := setTrue st.paths p }
  | .aptInstall p => { st with pkgs := setTrue st.pkgs p }
  | .sshKeygen f => { st with paths := setTrue st.paths f }
  | .curl _ out => { st with paths := setTrue st.paths out }
  | _ => st

/-- Modelled from the spec: the RemoteExecutor contract (spec 4.2) for
fabric's `append`, `sed` and `put`, which are external to src/.
`appendFile` creates the file if absent and does not duplicate an already
present identical line; `sedFile` replaces each line equal to the first
pattern by the second ("in-place find/replace matching one or more lines
exactly"); `putFile src dstdir` places the file at dstdir ++ src. -/
def applyOp (st : RState) : Op → RState
  | .sudoRun c => c.apply st
  | .appendFile p l =>
      { st with
        paths := setTrue st.paths p,
        files := fun q =>
          if q = p then (if (st.files p).contains l then st.files p else st.files p ++ [l])
          else st.files q }
  | .sedFile p a b =>
      { st with
        files := fun q =>
          if q = p then (st.files p).map (fun ln => if ln = a then b else ln)
          else st.files q }
  | .putFile src dst => { st with paths := setTrue st.paths (dst ++ src) }

/-- Run a list of operations left to right through the fake executor. -/
def runOps (st : RState) (ops : List Op) : RState :=
  ops.foldl applyOp st

/-- Result of `loadconfig`: the (possibly mutated) context, the log lines
printed, and an optional fatal `ConfigurationError`. -/
structure LoadResult where
  ctx : Ctx
  logs : List String
  err : Option ConfigError

/-- Result of running one fabric task: final context, final target state,
remote operations issued (in order), log lines printed, optional fatal
error.  On a fatal error the fields record everything done up to the
abort point (fabric's `abort` raises; the global env persists). -/
structure TaskResult where
  ctx : Ctx
  st : RState
  ops : List Op
  logs : List String
  err : Option ConfigError

/-- Merge one profile's key/value pairs into the context in document
order, overwriting existing values (fabfile.py lines 59-60). -/
def mergeVars (c : Ctx) (items : List (String × String)) : Ctx :=
  items.foldl (fun acc kv =>
    { acc with vars := fun q => if q = kv.1 then some kv.2 else acc.vars q }) c

/-- `loadconfig` (fabfile.py lines 35-63): return immediately when
already loaded; `require('config_key')`; abort when conf.json is missing;
JSON parse failure is fatal (modelled as the spec's malformed
`ConfigurationError`); abort when the profile key is absent from the
document; otherwise merge every key of the profile into env, logging each,
and set the loaded flag. -/
def loadconfig (conf : ConfFile) (c : Ctx) : LoadResult :=
  if c.config_loaded then ⟨c, [], none⟩
  else
    let logs0 := ["Loading configuration"]
    match c.config_key with
    | none => ⟨c, logs0, some (.missingRequired "config_key")⟩
    | some key =>
      match conf with
      | .missing => ⟨c, logs0, some .missingFile⟩
      | .unparsable => ⟨c, logs0, some .malformed⟩
      | .parsed doc =>
        match (doc.lookup key) with
        | none => ⟨c, logs0, some .missingProfile⟩
        | some items =>
          ⟨{ mergeVars c items with config_loaded := true },
           logs0 ++ ["Using this configuration:"]
                ++ items.map (fun kv => kv.1 ++ " => " ++ kv.2),
           none⟩

/-- `install_package` (fabfile.py lines 31-32): a single unconditional
`sudo('apt --yes install <pkg>', quiet=True)` — no query of the package
manager before installing. -/
def install_package (pkg : String) : Op :=
  Op.sudoRun (Cmd.aptInstall pkg)

/-- `addsshkey` (fabfile.py lines 66-85): if the user's remote `~/.ssh`
does not exist, create it, append the local public key (read from the
local filesystem, passed here as `pub`) to `authorized_keys` under
`cd(sshdir)`, chown it to the user and strip group/other permissions;
otherwise only log a skip message. -/
def addsshkey (pub : String) (username : String) (st : RState) :
    RState × List Op × List String :=
  let sshdir := "/home/" ++ username ++ "/.ssh"
  if st.paths sshdir then
    (st, [], [username ++ " ssh dir exists, not doing anything"])
  else
    let ops := [Op.sudoRun (Cmd.mkdir sshdir),
                Op.appendFile (sshdir ++ "/authorized_keys") pub,
                Op.sudoRun (Cmd.chown (username ++ ":" ++ username) sshdir),
                Op.sudoRun (Cmd.chmod ("go-rwx -R " ++ sshdir))]
    (runOps st ops, ops, [])

/-- `addadminuser` (fabfile.py lines 88-119): load config, require
`admin_user` and `admin_group`; if `/home/<admin_user>` does not exist,
create the user (disabled password), add it to the admin group and append
a passwordless-sudo line to its sudoers drop-in; otherwise log that the
user exists.  In both cases finish by calling `addsshkey`. -/
def addadminuser (conf : ConfFile) (pub : String) (c : Ctx) (st : RState) :
    TaskResult :=
  let l := loadconfig conf c
  match l.err with
  | some e => ⟨l.ctx, st, [], l.logs, some e⟩
  | none =>
    match l.ctx.vars "admin_user" with
    | none => ⟨l.ctx, st, [], l.logs, some (.missingRequired "admin_user")⟩
    | some admin_user =>
      match l.ctx.vars "admin_group" with
      | none => ⟨l.ctx, st, [], l.logs, some (.missingRequired "admin_group")⟩
      | some admin_group =>
        let user_home := "/home/" ++ admin_user
        let blk :=
          if st.paths user_home then
            (st, ([] : List Op), [admin_user ++ " user already exists"])
          else
            let ops := [Op.sudoRun (Cmd.adduser admin_user),
                        Op.sudoRun (Cmd.adduserGroup admin_user admin_group),
                        Op.appendFile ("/etc/sudoers.d/" ++ admin_user)
                          (admin_user ++ " ALL=(ALL) NOPASSWD:ALL")]
            (runOps st ops, ops, ([] : List String))
        let ssh := addsshkey pub admin_user blk.1
        ⟨l.ctx, ssh.1, blk.2.1 ++ ssh.2.1, l.logs ++ blk.2.2 ++ ssh.2.2, none⟩

/-- The sshd configuration file path used by `securessh`. -/
def sshdPath : String := "/etc/ssh/sshd_config"

/-- `securessh` (fabfile.py lines 122-131): always substitute
`PermitRootLogin yes` → `PermitRootLogin no` and
`#PasswordAuthentication yes` → `PasswordAuthentication no` in
sshd_config, then restart the ssh service.  No precondition guard. -/
def securessh (conf : ConfFile) (c : Ctx) (st : RState) : TaskResult :=
  let l := loadconfig conf c
  match l.err with
  | some e => ⟨l.ctx, st, [], l.logs, some e⟩
  | none =>
    let ops := [Op.sedFile sshdPath "PermitRootLogin yes" "PermitRootLogin no",
                Op.sedFile sshdPath "#PasswordAuthentication yes" "PasswordAuthentication no",
                Op.sudoRun (Cmd.serviceRestart "ssh")]
    ⟨l.ctx, runOps st ops, ops, l.logs, none⟩

/-- The firewall init-script path guarding `setupfirewall`. -/
def iptablesInitFile : String := "/etc/network/if-pre-up.d/firewall"

/-- The init-script text appended by `setupfirewall` (after `.strip()`). -/
def iptablesInitText : String :=
  "#!/bin/sh\n    /sbin/iptables-restore < /etc/iptables.firewall.rules"

/-- `setupfirewall` (fabfile.py lines 134-157): if the firewall init
script already exists, log and return; otherwise upload the rules file to
`/etc/`, append the init-script text, mark it executable and invoke it. -/
def setupfirewall (conf : ConfFile) (c : Ctx) (st : RState) : TaskResult :=
  let l := loadconfig conf c
  match l.err with
  | some e => ⟨l.ctx, st, [], l.logs, some e⟩
  | none =>
    if st.paths iptablesInitFile then
      ⟨l.ctx, st, [], l.logs ++ ["firewall file already exists, doing nothing"], none⟩
    else
      let ops := [Op.putFile "iptables.firewall.rules" "/etc/",
                  Op.appendFile iptablesInitFile iptablesInitText,
                  Op.sudoRun (Cmd.chmod ("+x " ++ iptablesInitFile)),
                  Op.sudoRun (Cmd.runFile iptablesInitFile)]
      ⟨l.ctx, runOps st ops, ops, l.logs, none⟩

/-- The fixed package list of `installpackages` (fabfile.py lines
167-194), active entries in declared order. -/
def pkg_list : List String :=
  ["emacs-nox", "git", "supervisor", "build-essential", "python3-dev",
   "virtualenv", "fail2ban", "nginx", "postgresql", "postgresql-contrib",
   "postgresql-server-dev-all", "zsh", "tmux"]

/-- `installpackages` (fabfile.py lines 160-204): load config, run
`apt update` once, then `install_package` for every entry of the fixed
list in order, logging a progress line per package.  There is no
per-package installed-state query. -/
def installpackages (conf : ConfFile) (c : Ctx) (st : RState) : TaskResult :=
  let l := loadconfig conf c
  match l.err with
  | some e => ⟨l.ctx, st, [], l.logs, some e⟩
  | none =>
    let ops := Op.sudoRun Cmd.aptUpdate :: pkg_list.map install_package
    let logs := l.logs ++ ["Updating and installing packages", "Updating repos"]
      ++ (pkg_list.enumFrom 1).map (fun p =>
            "Installing " ++ p.2 ++ " " ++ toString p.1 ++ "/" ++ toString pkg_list.length)
    ⟨l.ctx, runOps st ops, ops, logs, none⟩

/-- `setupdjangoapp` (fabfile.py lines 207-250): load config, require
`app_name`; if `/home/<app_name>` does not exist, create a
disabled-login user, generate its SSH keypair, print its public key,
create the app/logs/static/media directories (relative to the app home
via `cd`) and stage the get-pip/get-poetry installer scripts; then —
unconditionally, outside the guard — create the database role and the
database as the postgres user. -/
def setupdjangoapp (conf : ConfFile) (c : Ctx) (st : RState) : TaskResult :=
  let l := loadconfig conf c
  match l.err with
  | some e => ⟨l.ctx, st, [], l.logs, some e⟩
  | none =>
    match l.ctx.vars "app_name" with
    | none => ⟨l.ctx, st, [], l.logs, some (.missingRequired "app_name")⟩
    | some app_name =>
      let app_home := "/home/" ++ app_name
      let blk :=
        if st.paths app_home then (st, ([] : List Op), ([] : List String))
        else
          let ops := [Op.sudoRun (Cmd.adduserDisabledLogin app_name),
                      Op.sudoRun (Cmd.sshKeygen (app_home ++ "/.ssh/id_rsa")),
                      Op.sudoRun (Cmd.catFile (app_home ++ "/.ssh/id_rsa.pub")),
                      Op.sudoRun (Cmd.mkdir app_name),
                      Op.sudoRun (Cmd.mkdir "logs"),
                      Op.sudoRun (Cmd.mkdir "static"),
                      Op.sudoRun (Cmd.mkdir "media"),
                      Op.sudoRun (Cmd.curl "https://bootstrap.pypa.io/get-pip.py" "get-pip.py"),
                      Op.sudoRun (Cmd.curl "https://raw.githubusercontent.com/python-poetry/poetry/master/get-poetry.py" "get-poetry.py")]
          (runOps st ops, ops,
           ["Adding application user " ++ app_name,
            "Add this app key as your deploy key",
            "Getting app user home ready",
            "get-pip.py script ready in $HOME",
            "get-poetry.py script ready in $HOME"])
      let dbOps := [Op.sudoRun (Cmd.createuser app_name),
                    Op.sudoRun (Cmd.createdb app_name)]
      ⟨l.ctx, runOps blk.1 dbOps, blk.2.1 ++ dbOps, l.logs ++ blk.2.2, none⟩

/-- Sequence two task stages fail-fast: on error keep everything done so
far; otherwise run the continuation on the intermediate context/state and
concatenate operations and logs (fabric tasks abort the whole run). -/
def andThen (r : TaskResult) (f : Ctx → RState → TaskResult) : TaskResult :=
  match r.err with
  | some _ => r
  | none =>
    let r2 := f r.ctx r.st
    ⟨r2.ctx, r2.st, r.ops ++ r2.ops, r.logs ++ r2.logs, r2.err⟩

/-- `setup` (fabfile.py lines 253-263): load config, then run
`addadminuser`, `securessh`, `setupfirewall`, `installpackages` in that
order.  `setupdjangoapp` is not part of it. -/
def setup (conf : ConfFile) (pub : String) (c : Ctx) (st : RState) : TaskResult :=
  let l := loadconfig conf c
  match l.err with
  | some e => ⟨l.ctx, st, [], l.logs, some e⟩
  | none =>
    let r := andThen (andThen (andThen (addadminuser conf pub l.ctx st)
      (fun c1 s1 => securessh conf c1 s1))
      (fun c2 s2 => setupfirewall conf c2 s2))
      (fun c3 s3 => installpackages conf c3 s3)
    ⟨r.ctx, r.st, r.ops, l.logs ++ r.logs, r.err⟩

/-- `defaultserver` (fabfile.py lines 266-269): pin the profile key to
"default" and load the configuration. -/
def defaultserver (conf : ConfFile) (c : Ctx) : LoadResult :=
  loadconfig conf { c with config_key := some "default" }

/-! ### Concrete scenario constants (spec section 8's scenarios) -/

/-- The configuration document of the spec's scenario:
`{"default": {"admin_user": "ops", "admin_group": "sudo"}}`. -/
def scenarioDoc : List (String × List (String × String)) :=
  [("default", [("admin_user", "ops"), ("admin_group", "sudo")])]

/-- The scenario configuration file, parsed. -/
def scenarioConf : ConfFile := .parsed scenarioDoc

/-- A configuration document carrying only an app profile, for the
`setupdjangoapp` task. -/
def appConf : ConfFile :=
  .parsed [("default", [("app_name", "app")])]

/-- A document with no "default" profile. -/
def otherDoc : List (String × List (String × String)) :=
  [("production", [("admin_user", "ops")])]

/-- A fresh context: profile key pinned to "default", nothing loaded. -/
def freshCtx : Ctx := ⟨some "default", false, fun _ => none⟩

/-- The context right after loading the scenario configuration. -/
def loadedCtx : Ctx := (loadconfig scenarioConf freshCtx).ctx

/-- The context right after loading the app configuration. -/
def appCtx : Ctx := (loadconfig appConf freshCtx).ctx

/-- A blank remote target: no paths, users, memberships, files, packages. -/
def emptySt : RState :=
  ⟨fun _ => false, fun _ => false, fun _ _ => false, fun _ => [], fun _ => false⟩

/-- A target on which only the admin home directory `/home/ops` exists. -/
def stHome : RState := { emptySt with paths := fun p => p == "/home/ops" }

/-- A target on which only the admin `.ssh` directory exists. -/
def stSshDir : RState := { emptySt with paths := fun p => p == "/home/ops/.ssh" }

/-- A target on which only the firewall init script exists. -/
def stFw : RState := { emptySt with paths := fun p => p == iptablesInitFile }

/-- A target on which only the app home directory `/home/app` exists. -/
def stApp : RState := { emptySt with paths := fun p => p == "/home/app" }

/-- A target on which only the package `git` is already installed. -/
def stGit : RState := { emptySt with pkgs := fun p => p == "git" }

/-- A target whose sshd_config contains `PermitRootLogin yes` among
other lines. -/
def stSshd : RState :=
  { emptySt with
    files := fun q =>
      if q = sshdPath then ["PermitRootLogin yes", "X11Forwarding yes"] else [] }

/-! ### Basic lemmas about the executor and the loader -/

theorem setTrue_self (f : String → Bool) (p : String) : setTrue f p p = true := by
  simp [setTrue]

theorem setTrue_of_ne (f : String → Bool) {p q : String} (h : q ≠ p) :
    setTrue f p q = f q := by
  simp [setTrue, h]

theorem setTrue_eq_self (f : String → Bool) (p : String) (h : f p = true) :
    setTrue f p = f := by
  funext q
  by_cases hq : q = p
  · simp [setTrue, hq, h]
  · simp [setTrue, hq]

/-- `loadconfig` with the loaded flag set is a no-op returning the
existing context (fabfile.py lines 39-40). -/
theorem loadconfig_of_loaded (conf : ConfFile) (c : Ctx)
    (h : c.config_loaded = true) : loadconfig conf c = ⟨c, [], none⟩ := by
  simp [loadconfig, h]

theorem loadedCtx_config_loaded : loadedCtx.config_loaded = true := by decide

theorem loadedCtx_admin_user : loadedCtx.vars "admin_user" = some "ops" := by decide

theorem loadedCtx_admin_group : loadedCtx.vars "admin_group" = some "sudo" := by decide

theorem appCtx_config_loaded : appCtx.config_loaded = true := by decide

theorem appCtx_app_name : appCtx.vars "app_name" = some "app" := by decide

/-- Loading the scenario configuration from the fresh context succeeds
and produces `loadedCtx` together with one log line per merged key. -/
theorem loadconfig_fresh :
    loadconfig scenarioConf freshCtx =
      ⟨loadedCtx, ["Loading configuration", "Using this configuration:",
                   "admin_user => ops", "admin_group => sudo"], none⟩ := by
  rfl

theorem loadconfig_app_fresh :
    loadconfig appConf freshCtx =
      ⟨appCtx, ["Loading configuration", "Using this configuration:",
                "app_name => app"], none⟩ := by
  rfl

/-! ### Canonical operation lists of the guarded blocks -/

/-- The three remote operations of `addadminuser`'s guarded user-creation
block (fabfile.py lines 106-115). -/
def adminOps (u g : String) : List Op :=
  [Op.sudoRun (Cmd.adduser u),
   Op.sudoRun (Cmd.adduserGroup u g),
   Op.appendFile ("/etc/sudoers.d/" ++ u) (u ++ " ALL=(ALL) NOPASSWD:ALL")]

/-- The four remote operations of `addsshkey`'s guarded block
(fabfile.py lines 75-83). -/
def sshKeyOps (pub u : String) : List Op :=
  let sshdir := "/home/" ++ u ++ "/.ssh"
  [Op.sudoRun (Cmd.mkdir sshdir),
   Op.appendFile (sshdir ++ "/authorized_keys") pub,
   Op.sudoRun (Cmd.chown (u ++ ":" ++ u) sshdir),
   Op.sudoRun (Cmd.chmod ("go-rwx -R " ++ sshdir))]

/-- The three remote operations `securessh` always issues
(fabfile.py lines 129-131). -/
def secOps : List Op :=
  [Op.sedFile sshdPath "PermitRootLogin yes" "PermitRootLogin no",
   Op.sedFile sshdPath "#PasswordAuthentication yes" "PasswordAuthentication no",
   Op.sudoRun (Cmd.serviceRestart "ssh")]

/-- The four remote operations of `setupfirewall`'s guarded block
(fabfile.py lines 149-157). -/
def firewallOps : List Op :=
  [Op.putFile "iptables.firewall.rules" "/etc/",
   Op.appendFile iptablesInitFile iptablesInitText,
   Op.sudoRun (Cmd.chmod ("+x " ++ iptablesInitFile)),
   Op.sudoRun (Cmd.runFile iptablesInitFile)]

/-- The operations `installpackages` always issues: one index refresh,
then one unconditional install per declared package, in order. -/
def pkgOps : List Op :=
  Op.sudoRun Cmd.aptUpdate :: pkg_list.map install_package

/-- The per-line effect of the first sshd_config substitution. -/
def sub1 (x : String) : String :=
  if x = "PermitRootLogin yes" then "PermitRootLogin no" else x

/-- The per-line effect of the second sshd_config substitution. -/
def sub2 (x : String) : String :=
  if x = "#PasswordAuthentication yes" then "PasswordAuthentication no" else x

/-! ### Path disjointness facts used by the guard analysis -/

theorem sshdir_ne_home (u : String) :
    ("/home/" ++ u ++ "/.ssh") ≠ ("/home/" ++ u) := by
  intro h
  have h2 := congrArg String.length h
  have e2 : ("/.ssh" : String).length = 5 := rfl
  simp [String.length_append, e2] at h2

theorem sshdir_ne_sudoers (u : String) :
    ("/home/" ++ u ++ "/.ssh") ≠ ("/etc/sudoers.d/" ++ u) := by
  intro h
  have h2 := congrArg String.length h
  have e1 : ("/home/" : String).length = 6 := rfl
  have e2 : ("/.ssh" : String).length = 5 := rfl
  have e3 : ("/etc/sudoers.d/" : String).length = 15 := rfl
  simp [String.length_append, e1, e2, e3] at h2
  omega

/-! ### Executor-level helper lemmas -/

theorem runOps_append (st : RState) (a b : List Op) :
    runOps st (a ++ b) = runOps (runOps st a) b := by
  simp [runOps, List.foldl_append]

/-- Every modelled remote operation only ever creates paths, so an
existing path still exists after any operation. -/
theorem applyOp_paths_mono (st : RState) (o : Op) {p : String}
    (h : st.paths p = true) : (applyOp st o).paths p = true := by
  cases o with
  | sudoRun c => cases c <;> simp [applyOp, Cmd.apply, setTrue, h]
  | appendFile a b => simp [applyOp, setTrue, h]
  | sedFile a b c => simpa [applyOp] using h
  | putFile a b => simp [applyOp, setTrue, h]

theorem runOps_paths_mono (ops : List Op) (st : RState) {p : String}
    (h : st.paths p = true) : (runOps st ops).paths p = true := by
  induction ops generalizing st with
  | nil => simpa [runOps] using h
  | cons o rest ih =>
    simpa [runOps] using ih (applyOp st o) (applyOp_paths_mono st o h)

/-- `addsshkey` either skips (guard true) or performs exactly the four
operations of `sshKeyOps`, with the guard read from the supplied state. -/
theorem addsshkey_eq (pub u : String) (st : RState) :
    addsshkey pub u st =
      if st.paths ("/home/" ++ u ++ "/.ssh") = true then
        (st, [], [u ++ " ssh dir exists, not doing anything"])
      else (runOps st (sshKeyOps pub u), sshKeyOps pub u, []) := by
  by_cases hg : st.paths ("/home/" ++ u ++ "/.ssh") = true <;>
    simp [addsshkey, sshKeyOps, hg]

/-- The user-creation block of `addadminuser` does not create or remove
the `.ssh` directory: the `addsshkey` guard reads the same value before
and after it. -/
theorem adminOps_preserves_sshdir (u g : String) (st : RState) :
    (runOps st (adminOps u g)).paths ("/home/" ++ u ++ "/.ssh") =
      st.paths ("/home/" ++ u ++ "/.ssh") := by
  simp [runOps, adminOps, applyOp, Cmd.apply,
        setTrue_of_ne _ (sshdir_ne_home u), setTrue_of_ne _ (sshdir_ne_sudoers u)]

/-- Full characterization of `addadminuser` over a loaded context: the
user-creation block runs iff the admin home is missing, the SSH-key block
runs iff the `.ssh` directory is missing in the original state, and the
operations are the concatenation of the two guarded blocks. -/
theorem addadminuser_eq (conf : ConfFile) (pub u g : String) (c : Ctx)
    (st : RState) (h : c.config_loaded = true)
    (hu : c.vars "admin_user" = some u) (hg : c.vars "admin_group" = some g) :
    addadminuser conf pub c st =
      ⟨c,
       runOps st ((if st.paths ("/home/" ++ u) = true then [] else adminOps u g) ++
         (if st.paths ("/home/" ++ u ++ "/.ssh") = true then [] else sshKeyOps pub u)),
       (if st.paths ("/home/" ++ u) = true then [] else adminOps u g) ++
         (if st.paths ("/home/" ++ u ++ "/.ssh") = true then [] else sshKeyOps pub u),
       (if st.paths ("/home/" ++ u) = true then [u ++ " user already exists"] else []) ++
         (if st.paths ("/home/" ++ u ++ "/.ssh") = true then
            [u ++ " ssh dir exists, not doing anything"] else []),
       none⟩ := by
  by_cases hHome : st.paths ("/home/" ++ u) = true
  · by_cases hSsh : st.paths ("/home/" ++ u ++ "/.ssh") = true <;>
      simp [addadminuser, loadconfig_of_loaded conf c h, hu, hg, addsshkey_eq,
            hHome, hSsh, runOps]
  · have hpres := adminOps_preserves_sshdir u g st
    simp only [runOps, adminOps, List.foldl] at hpres
    by_cases hSsh : st.paths ("/home/" ++ u ++ "/.ssh") = true <;>
      simp [addadminuser, loadconfig_of_loaded conf c h, hu, hg, addsshkey_eq,
            hHome, hSsh, hpres, runOps_append, runOps, adminOps]

/-- `securessh` over a loaded context always issues exactly `secOps` and
rewrites the sshd_config lines through `sub1` then `sub2`. -/
theorem securessh_eq (conf : ConfFile) (c : Ctx) (st : RState)
    (h : c.config_loaded = true) :
    securessh conf c st =
      ⟨c,
       { st with
         files := fun q =>
           if q = sshdPath then ((st.files sshdPath).map sub1).map sub2
           else st.files q },
       secOps, [], none⟩ := by
  have : runOps st secOps =
      { st with
        files := fun q =>
          if q = sshdPath then ((st.files sshdPath).map sub1).map sub2
          else st.files q } := by
    simp only [runOps, secOps, List.foldl, applyOp, Cmd.apply]
    congr 1
    funext q
    by_cases hq : q = sshdPath <;> simp [hq, sub1, sub2]
  have hgoal : securessh conf c st = ⟨c, runOps st secOps, secOps, [], none⟩ := by
    simp [securessh, loadconfig_of_loaded conf c h, secOps]
  rw [hgoal, this]

/-- `setupfirewall` over a loaded context skips entirely when the init
script exists. -/
theorem setupfirewall_skip (conf : ConfFile) (c : Ctx) (st : RState)
    (h : c.config_loaded = true) (hg : st.paths iptablesInitFile = true) :
    setupfirewall conf c st =
      ⟨c, st, [], ["firewall file already exists, doing nothing"], none⟩ := by
  simp [setupfirewall, loadconfig_of_loaded conf c h, hg]

/-- `setupfirewall` over a loaded context installs the firewall via
exactly `firewallOps` when the init script is missing. -/
theorem setupfirewall_install (conf : ConfFile) (c : Ctx) (st : RState)
    (h : c.config_loaded = true) (hg : st.paths iptablesInitFile = false) :
    setupfirewall conf c st = ⟨c, runOps st firewallOps, firewallOps, [], none⟩ := by
  simp [setupfirewall, loadconfig_of_loaded conf c h, hg, firewallOps]

/-- `installpackages` over a loaded context always issues exactly
`pkgOps`: one `apt update` then one unconditional install per package. -/
theorem installpackages_eq (conf : ConfFile) (c : Ctx) (st : RState)
    (h : c.config_loaded = true) :
    installpackages conf c st =
      ⟨c, runOps st pkgOps, pkgOps,
       ["Updating and installing packages", "Updating repos"]
         ++ (pkg_list.enumFrom 1).map (fun p =>
               "Installing " ++ p.2 ++ " " ++ toString p.1 ++ "/"
                 ++ toString pkg_list.length),
       none⟩ := by
  simp [installpackages, loadconfig_of_loaded conf c h, pkgOps]

/-- Installing a package list only touches the installed-package set:
every other state component is unchanged. -/
theorem runOps_installs_frame (l : List String) (st : RState) :
    (runOps st (l.map install_package)).paths = st.paths ∧
    (runOps st (l.map install_package)).users = st.users ∧
    (runOps st (l.map install_package)).member = st.member ∧
    (runOps st (l.map install_package)).files = st.files := by
  induction l generalizing st with
  | nil => simp [runOps]
  | cons p rest ih =>
    simpa [runOps, install_package, applyOp, Cmd.apply]
      using ih { st with pkgs := setTrue st.pkgs p }

/-- After installing a package list, a package is registered iff it is
in the list or was registered before. -/
theorem runOps_installs_pkgs (l : List String) (st : RState) (q : String) :
    (runOps st (l.map install_package)).pkgs q = (l.contains q || st.pkgs q) := by
  induction l generalizing st with
  | nil => simp [runOps]
  | cons p rest ih =>
    have := ih { st with pkgs := setTrue st.pkgs p }
    simp only [runOps, List.map, List.foldl, install_package, applyOp,
               Cmd.apply] at this ⊢
    rw [this]
    by_cases hq : q = p <;> simp [setTrue, hq, List.contains_cons]

/-- Installing packages that are all already registered leaves the fake
target state unchanged. -/
theorem runOps_installs_noop (l : List String) (st : RState)
    (h : ∀ p ∈ l, st.pkgs p = true) :
    runOps st (l.map install_package) = st := by
  induction l generalizing st with
  | nil => simp [runOps]
  | cons p rest ih =>
    have h1 : setTrue st.pkgs p = st.pkgs := setTrue_eq_self _ _ (h p (by simp))
    have h2 : applyOp st (install_package p) = st := by
      simp [install_package, applyOp, Cmd.apply, h1]
    simpa [runOps, h2] using ih st (fun q hq => h q (by simp [hq]))

/-! ### Counting and classification helpers -/

/-- An operation is an `adduser` call for user `u` when it is a `sudo`
command whose rendered command line starts with `adduser <u> `. -/
def adduserFor (u : String) (o : Op) : Bool :=
  match o with
  | .sudoRun c => ("adduser " ++ u ++ " ").data.isPrefixOf (Cmd.render c).data
  | _ => false

/-- Number of `adduser` calls for user `u` in an operation trace. -/
def countAdduser (u : String) (ops : List Op) : Nat :=
  (ops.filter (adduserFor u)).length

/-- Operations distinctive of the `setupdjangoapp` task: app-user
creation, its keypair and installer staging, and the database role and
database creation. -/
def isAppUserOp (o : Op) : Bool :=
  match o with
  | .sudoRun (.createuser _) => true
  | .sudoRun (.createdb _) => true
  | .sudoRun (.adduserDisabledLogin _) => true
  | .sudoRun (.sshKeygen _) => true
  | .sudoRun (.curl _ _) => true
  | .sudoRun (.catFile _) => true
  | _ => false

/-- One line never substituted twice: the two sshd substitutions reach a
fixed point after a single application. -/
theorem sub_fixed (x : String) : sub2 (sub1 (sub2 (sub1 x))) = sub2 (sub1 x) := by
  by_cases h1 : x = "PermitRootLogin yes" <;>
    by_cases h2 : x = "#PasswordAuthentication yes" <;>
      simp [sub1, sub2, h1, h2]

theorem map_sub_fixed (l : List String) :
    ((((l.map sub1).map sub2).map sub1).map sub2) = (l.map sub1).map sub2 := by
  induction l with
  | nil => simp
  | cons a t ih =>
    simp only [List.map_cons] at ih ⊢
    rw [ih, sub_fixed]

/-- No line of a substituted file still reads `PermitRootLogin yes`. -/
theorem sub_ne_root_yes (x : String) :
    sub2 (sub1 x) ≠ "PermitRootLogin yes" := by
  by_cases h1 : x = "PermitRootLogin yes" <;>
    by_cases h2 : x = "#PasswordAuthentication yes" <;>
      simp [sub1, sub2, h1, h2]

/-! ### Claim theorems -/

/-- C4: configuration loading fails with a `ConfigurationError` exactly
when the profile key is unset, conf.json is missing, the document is
unparsable, or the named profile is absent; and any such failure leaves
every task with an empty remote-operation trace (it aborts before any
remote action). -/
theorem loadconfig_error_conditions (conf : ConfFile) (c : Ctx)
    (h0 : c.config_loaded = false) :
    ((loadconfig conf c).err ≠ none ↔
      c.config_key = none ∨ conf = .missing ∨ conf = .unparsable ∨
        (∃ doc k, conf = .parsed doc ∧ c.config_key = some k ∧
          doc.lookup k = none)) ∧
    (∀ e, (loadconfig conf c).err = some e →
      ∀ pub st, (addadminuser conf pub c st).ops = [] ∧
        (securessh conf c st).ops = [] ∧
        (setupfirewall conf c st).ops = [] ∧
        (installpackages conf c st).ops = [] ∧
        (setupdjangoapp conf c st).ops = [] ∧
        (setup conf pub c st).ops = []) := by
  constructor
  · cases hk : c.config_key with
    | none =>
      have herr : (loadconfig conf c).err = some (.missingRequired "config_key") := by
        simp [loadconfig, h0, hk]
      simp [herr, hk]
    | some k =>
      cases conf with
      | missing =>
        have herr : (loadconfig .missing c).err = some .missingFile := by
          simp [loadconfig, h0, hk]
        simp [herr]
      | unparsable =>
        have herr : (loadconfig .unparsable c).err = some .malformed := by
          simp [loadconfig, h0, hk]
        simp [herr]
      | parsed doc =>
        cases hl : doc.lookup k with
        | none =>
          have herr : (loadconfig (.parsed doc) c).err = some .missingProfile := by
            simp [loadconfig, h0, hk, hl]
          rw [herr]
          constructor
          · intro _
            exact Or.inr (Or.inr (Or.inr ⟨doc, k, rfl, rfl, hl⟩))
          · intro _
            simp
        | some items =>
          have herr : (loadconfig (.parsed doc) c).err = none := by
            simp [loadconfig, h0, hk, hl]
          rw [herr]
          constructor
          · intro hcontra
            exact absurd rfl hcontra
          · rintro (h | h | h | ⟨doc', k', hdoc, hk', hlu⟩)
            · exact Option.noConfusion h
            · exact ConfFile.noConfusion h
            · exact ConfFile.noConfusion h
            · injection hdoc with hdd
              subst hdd
              injection hk' with hkk
              subst hkk
              rw [hl] at hlu
              exact Option.noConfusion hlu
  · intro e he pub st
    refine ⟨?_, ?_, ?_, ?_, ?_, ?_⟩ <;>
      simp [addadminuser, securessh, setupfirewall, installpackages,
            setupdjangoapp, setup, he]

/-- C5: over any document containing the requested profile, loading a
second time with the context already marked loaded is a no-op yielding
the very context a single load produced. -/
theorem loadconfig_idempotent (conf : ConfFile) (c : Ctx)
    (doc : List (String × List (String × String))) (k : String)
    (items : List (String × String)) (h1 : conf = .parsed doc)
    (h2 : c.config_key = some k) (h3 : doc.lookup k = some items) :
    (loadconfig conf c).err = none ∧
    loadconfig conf (loadconfig conf c).ctx =
      ⟨(loadconfig conf c).ctx, [], none⟩ := by
  by_cases h0 : c.config_loaded = true
  · rw [loadconfig_of_loaded conf c h0]
    exact ⟨rfl, loadconfig_of_loaded conf c h0⟩
  · have h0' : c.config_loaded = false := by
      simpa using h0
    subst h1
    simp [loadconfig, h0', h2, h3]

/-- C6: loading a profile key absent from the document fails with a
`ConfigurationError` and returns the context unchanged — no key is
merged before the failure. -/
theorem loadconfig_missing_profile (c : Ctx)
    (doc : List (String × List (String × String))) (k : String)
    (h0 : c.config_loaded = false) (h2 : c.config_key = some k)
    (h3 : doc.lookup k = none) :
    loadconfig (.parsed doc) c =
      ⟨c, ["Loading configuration"], some .missingProfile⟩ := by
  simp [loadconfig, h0, h2, h3]

/-- Witness for C4: with a missing conf.json and a fresh context, the
load fails. -/
theorem loadconfig_error_conditions_witness :
    freshCtx.config_loaded = false ∧ (loadconfig ConfFile.missing freshCtx).err ≠ none :=
  ⟨by decide,
   (loadconfig_error_conditions ConfFile.missing freshCtx (by decide)).1.mpr
     (Or.inr (Or.inl rfl))⟩

/-- Witness for C5: the scenario document loaded twice from the fresh
context yields the once-loaded context. -/
theorem loadconfig_idempotent_witness :
    (scenarioConf = ConfFile.parsed scenarioDoc ∧
      freshCtx.config_key = some "default" ∧
      scenarioDoc.lookup "default" =
        some [("admin_user", "ops"), ("admin_group", "sudo")]) ∧
    ((loadconfig scenarioConf freshCtx).err = none ∧
      loadconfig scenarioConf (loadconfig scenarioConf freshCtx).ctx =
        ⟨(loadconfig scenarioConf freshCtx).ctx, [], none⟩) :=
  ⟨⟨rfl, by decide, by decide⟩,
   loadconfig_idempotent scenarioConf freshCtx scenarioDoc "default"
     [("admin_user", "ops"), ("admin_group", "sudo")] rfl (by decide) (by decide)⟩

/-- Witness for C6: loading profile "default" from a document without it
aborts and returns the fresh context untouched. -/
theorem loadconfig_missing_profile_witness :
    (freshCtx.config_loaded = false ∧ freshCtx.config_key = some "default" ∧
      otherDoc.lookup "default" = none) ∧
    loadconfig (.parsed otherDoc) freshCtx =
      ⟨freshCtx, ["Loading configuration"], some .missingProfile⟩ :=
  ⟨⟨by decide, by decide, by decide⟩,
   loadconfig_missing_profile freshCtx otherDoc "default" (by decide) (by decide)
     (by decide)⟩

/-- C7 counterexample: in the spec scenario with `/home/ops` absent, the
task issues two `adduser` calls for ops (`adduser ops --disabled-password
--gecos ""` and `adduser ops sudo`), not exactly one. -/
theorem addadminuser_adduser_count_cex :
    loadedCtx.vars "admin_user" = some "ops" ∧
    loadedCtx.vars "admin_group" = some "sudo" ∧
    emptySt.paths "/home/ops" = false ∧
    countAdduser "ops" (addadminuser scenarioConf "PUBKEY" freshCtx emptySt).ops ≠ 1 ∧
    countAdduser "ops" (addadminuser scenarioConf "PUBKEY" freshCtx emptySt).ops = 2 := by
  decide

/-- C7 amended: after loading the scenario configuration the context
holds admin_user="ops" and admin_group="sudo"; when `/home/ops` is absent
the task issues exactly two `adduser` calls for ops — one user creation
and one group addition, each once — and when `/home/ops` exists it issues
zero `adduser` calls. -/
theorem addadminuser_adduser_counts :
    loadedCtx.vars "admin_user" = some "ops" ∧
    loadedCtx.vars "admin_group" = some "sudo" ∧
    (emptySt.paths "/home/ops" = false ∧
      countAdduser "ops" (addadminuser scenarioConf "PUBKEY" freshCtx emptySt).ops = 2 ∧
      (addadminuser scenarioConf "PUBKEY" freshCtx emptySt).ops.count
        (Op.sudoRun (Cmd.adduser "ops")) = 1 ∧
      (addadminuser scenarioConf "PUBKEY" freshCtx emptySt).ops.count
        (Op.sudoRun (Cmd.adduserGroup "ops" "sudo")) = 1) ∧
    (stHome.paths "/home/ops" = true ∧
      countAdduser "ops" (addadminuser scenarioConf "PUBKEY" freshCtx stHome).ops = 0) := by
  decide

/-- C3 counterexample: with git already registered with the package
manager, the task still issues `apt --yes install git` — no pre-install
query, no skip. -/
theorem installpackages_no_query_cex :
    stGit.pkgs "git" = true ∧
    Op.sudoRun (Cmd.aptInstall "git") ∈ (installpackages scenarioConf freshCtx stGit).ops := by
  decide

/-- C3 amended: `install-packages` refreshes the index once and then
unconditionally issues one install per declared package, in the exact
declared order, with no installed-state query; on the fake target every
listed package ends installed and already-installed ones stay installed. -/
theorem installpackages_unconditional (conf : ConfFile) (c : Ctx) (st : RState)
    (h : c.config_loaded = true) :
    (installpackages conf c st).ops =
      Op.sudoRun Cmd.aptUpdate :: pkg_list.map install_package ∧
    (∀ q, (installpackages conf c st).st.pkgs q = (pkg_list.contains q || st.pkgs q)) := by
  rw [installpackages_eq conf c st h]
  refine ⟨by simp [pkgOps], ?_⟩
  intro q
  have h1 : runOps st pkgOps = runOps st (pkg_list.map install_package) := by
    simp [pkgOps, runOps, applyOp, Cmd.apply]
  simp only [h1]
  rw [runOps_installs_pkgs]

/-- Witness for C3's amended theorem at the loaded scenario context and a
blank target. -/
theorem installpackages_unconditional_witness :
    loadedCtx.config_loaded = true ∧
    ((installpackages scenarioConf loadedCtx emptySt).ops =
      Op.sudoRun Cmd.aptUpdate :: pkg_list.map install_package ∧
    (∀ q, (installpackages scenarioConf loadedCtx emptySt).st.pkgs q =
      (pkg_list.contains q || emptySt.pkgs q))) :=
  ⟨by decide, installpackages_unconditional scenarioConf loadedCtx emptySt (by decide)⟩

/-- C2 counterexample: for `setup-app-user`, when the guarding home
directory `/home/app` exists, remote state-changing commands are still
issued (the database role and database creation) — refuting that a
guarded step with a true precondition performs nothing against the
target. -/
theorem setupdjangoapp_not_skipped_cex :
    stApp.paths "/home/app" = true ∧
    (setupdjangoapp appConf freshCtx stApp).err = none ∧
    (setupdjangoapp appConf freshCtx stApp).ops ≠ [] ∧
    (setupdjangoapp appConf freshCtx stApp).ops =
      [Op.sudoRun (Cmd.createuser "app"), Op.sudoRun (Cmd.createdb "app")] := by
  decide

/-- C2 amended: when its guarding path exists, `install-ssh-key` issues
nothing and logs a skip message, and `setup-firewall` issues nothing and
logs a skip message; `add-admin-user` skips its user-creation commands
with a skip message but still runs the SSH-key sub-step under its own
guard; `setup-app-user` skips its user-setup block without logging
anything, yet still issues the database `createuser`/`createdb`
commands. -/
theorem guarded_steps_skip :
    (∀ pub u st, st.paths ("/home/" ++ u ++ "/.ssh") = true →
      addsshkey pub u st = (st, [], [u ++ " ssh dir exists, not doing anything"])) ∧
    (∀ conf c st, c.config_loaded = true → st.paths iptablesInitFile = true →
      setupfirewall conf c st =
        ⟨c, st, [], ["firewall file already exists, doing nothing"], none⟩) ∧
    (∀ conf pub u g c st, c.config_loaded = true →
      c.vars "admin_user" = some u → c.vars "admin_group" = some g →
      st.paths ("/home/" ++ u) = true →
      (addadminuser conf pub c st).ops =
        (if st.paths ("/home/" ++ u ++ "/.ssh") = true then [] else sshKeyOps pub u) ∧
      (addadminuser conf pub c st).logs.head? = some (u ++ " user already exists")) ∧
    (∀ conf c st a, c.config_loaded = true → c.vars "app_name" = some a →
      st.paths ("/home/" ++ a) = true →
      setupdjangoapp conf c st =
        ⟨c, st, [Op.sudoRun (Cmd.createuser a), Op.sudoRun (Cmd.createdb a)],
         [], none⟩) := by
  refine ⟨?_, ?_, ?_, ?_⟩
  · intro pub u st hg
    simp [addsshkey_eq, hg]
  · intro conf c st hc hg
    exact setupfirewall_skip conf c st hc hg
  · intro conf pub u g c st hc hu hg hHome
    rw [addadminuser_eq conf pub u g c st hc hu hg]
    simp [hHome]
  · intro conf c st a hc ha hHome
    simp [setupdjangoapp, loadconfig_of_loaded conf c hc, ha, hHome, runOps,
          applyOp, Cmd.apply]

/-- Witness for C2's amended theorem at concrete targets. -/
theorem guarded_steps_skip_witness :
    (stSshDir.paths ("/home/" ++ "ops" ++ "/.ssh") = true ∧
      addsshkey "PUBKEY" "ops" stSshDir =
        (stSshDir, [], ["ops" ++ " ssh dir exists, not doing anything"])) ∧
    (loadedCtx.config_loaded = true ∧ stFw.paths iptablesInitFile = true ∧
      setupfirewall scenarioConf loadedCtx stFw =
        ⟨loadedCtx, stFw, [], ["firewall file already exists, doing nothing"], none⟩) ∧
    (stHome.paths ("/home/" ++ "ops") = true ∧
      (addadminuser scenarioConf "PUBKEY" loadedCtx stHome).ops =
        (if stHome.paths ("/home/" ++ "ops" ++ "/.ssh") = true then []
         else sshKeyOps "PUBKEY" "ops") ∧
      (addadminuser scenarioConf "PUBKEY" loadedCtx stHome).logs.head? =
        some ("ops" ++ " user already exists")) ∧
    (appCtx.vars "app_name" = some "app" ∧ stApp.paths ("/home/" ++ "app") = true ∧
      setupdjangoapp appConf appCtx stApp =
        ⟨appCtx, stApp,
         [Op.sudoRun (Cmd.createuser "app"), Op.sudoRun (Cmd.createdb "app")],
         [], none⟩) :=
  ⟨⟨by decide, guarded_steps_skip.1 "PUBKEY" "ops" stSshDir (by decide)⟩,
   ⟨by decide, by decide,
    guarded_steps_skip.2.1 scenarioConf loadedCtx stFw (by decide) (by decide)⟩,
   ⟨by decide,
    guarded_steps_skip.2.2.1 scenarioConf "PUBKEY" "ops" "sudo" loadedCtx stHome
      (by decide) (by decide) (by decide) (by decide)⟩,
   ⟨by decide, by decide,
    guarded_steps_skip.2.2.2 appConf appCtx stApp "app" (by decide) (by decide)
      (by decide)⟩⟩

/-- C10: `addadminuser` always reaches the SSH-key installation step:
its operation trace is the user-creation block (guarded by the admin home
directory) followed by the SSH-key block, whose guard reads the existence
of `~/.ssh` in the original target state, independently of the
user-existence guard. -/
theorem addadminuser_always_sshkey (conf : ConfFile) (pub u g : String)
    (c : Ctx) (st : RState) (h : c.config_loaded = true)
    (hu : c.vars "admin_user" = some u) (hg : c.vars "admin_group" = some g) :
    (addadminuser conf pub c st).ops =
      (if st.paths ("/home/" ++ u) = true then [] else adminOps u g) ++
        (if st.paths ("/home/" ++ u ++ "/.ssh") = true then []
         else sshKeyOps pub u) := by
  rw [addadminuser_eq conf pub u g c st h hu hg]

/-- Witness for C10: admin home present, `.ssh` absent — the SSH-key
block still runs. -/
theorem addadminuser_always_sshkey_witness :
    (loadedCtx.config_loaded = true ∧
      loadedCtx.vars "admin_user" = some "ops" ∧
      loadedCtx.vars "admin_group" = some "sudo") ∧
    (addadminuser scenarioConf "PUBKEY" loadedCtx stHome).ops =
      (if stHome.paths ("/home/" ++ "ops") = true then [] else adminOps "ops" "sudo") ++
        (if stHome.paths ("/home/" ++ "ops" ++ "/.ssh") = true then []
         else sshKeyOps "PUBKEY" "ops") :=
  ⟨⟨by decide, by decide, by decide⟩,
   addadminuser_always_sshkey scenarioConf "PUBKEY" "ops" "sudo" loadedCtx stHome
     (by decide) (by decide) (by decide)⟩

/-- C8 counterexample: starting from an sshd_config containing
`PermitRootLogin yes`, two runs of `secure-ssh` issue two service
restart calls, not one — the restart is re-issued on every run. -/
theorem securessh_two_restarts_cex :
    "PermitRootLogin yes" ∈ stSshd.files sshdPath ∧
    ((securessh scenarioConf freshCtx stSshd).ops ++
      (securessh scenarioConf (securessh scenarioConf freshCtx stSshd).ctx
        (securessh scenarioConf freshCtx stSshd).st).ops).count
      (Op.sudoRun (Cmd.serviceRestart "ssh")) ≠ 1 ∧
    ((securessh scenarioConf freshCtx stSshd).ops ++
      (securessh scenarioConf (securessh scenarioConf freshCtx stSshd).ctx
        (securessh scenarioConf freshCtx stSshd).st).ops).count
      (Op.sudoRun (Cmd.serviceRestart "ssh")) = 2 := by
  decide

/-- C8 amended: on a target whose sshd_config contains
`PermitRootLogin yes`, one run substitutes the line away (the result
contains `PermitRootLogin no` and no `PermitRootLogin yes`), every later
run leaves the target state unchanged (zero-effect substitution), and
each run issues exactly one service restart call. -/
theorem securessh_idempotent_subst (conf : ConfFile) (c : Ctx) (st : RState)
    (h : c.config_loaded = true)
    (hline : "PermitRootLogin yes" ∈ st.files sshdPath) :
    (securessh conf c st).ops.count (Op.sudoRun (Cmd.serviceRestart "ssh")) = 1 ∧
    "PermitRootLogin no" ∈ (securessh conf c st).st.files sshdPath ∧
    "PermitRootLogin yes" ∉ (securessh conf c st).st.files sshdPath ∧
    securessh conf c (securessh conf c st).st =
      ⟨c, (securessh conf c st).st, secOps, [], none⟩ := by
  have h1 := securessh_eq conf c st h
  have hfiles : (securessh conf c st).st.files sshdPath =
      ((st.files sshdPath).map sub1).map sub2 := by
    rw [h1]
    simp
  refine ⟨?_, ?_, ?_, ?_⟩
  · rw [h1]
    show secOps.count (Op.sudoRun (Cmd.serviceRestart "ssh")) = 1
    decide
  · rw [hfiles]
    have hm1 : "PermitRootLogin no" ∈ (st.files sshdPath).map sub1 :=
      List.mem_map.mpr ⟨"PermitRootLogin yes", hline, by decide⟩
    exact List.mem_map.mpr ⟨"PermitRootLogin no", hm1, by decide⟩
  · rw [hfiles, List.map_map]
    intro hmem
    obtain ⟨x, _, hxe⟩ := List.mem_map.mp hmem
    exact sub_ne_root_yes x (by simpa using hxe)
  · rw [securessh_eq conf c (securessh conf c st).st h]
    have hfix : { (securessh conf c st).st with
        files := fun q =>
          if q = sshdPath then
            (((securessh conf c st).st.files sshdPath).map sub1).map sub2
          else (securessh conf c st).st.files q } = (securessh conf c st).st := by
      have hmap : (((securessh conf c st).st.files sshdPath).map sub1).map sub2 =
          (securessh conf c st).st.files sshdPath := by
        rw [hfiles]
        exact map_sub_fixed (st.files sshdPath)
      apply RState.ext <;> try rfl
      funext q
      by_cases hq : q = sshdPath
      · simp [hq, hmap]
      · simp [hq]
    rw [hfix]

/-- Witness for C8's amended theorem at a concrete sshd_config. -/
theorem securessh_idempotent_subst_witness :
    (loadedCtx.config_loaded = true ∧
      "PermitRootLogin yes" ∈ stSshd.files sshdPath) ∧
    ((securessh scenarioConf loadedCtx stSshd).ops.count
        (Op.sudoRun (Cmd.serviceRestart "ssh")) = 1 ∧
      "PermitRootLogin no" ∈ (securessh scenarioConf loadedCtx stSshd).st.files sshdPath ∧
      "PermitRootLogin yes" ∉ (securessh scenarioConf loadedCtx stSshd).st.files sshdPath ∧
      securessh scenarioConf loadedCtx (securessh scenarioConf loadedCtx stSshd).st =
        ⟨loadedCtx, (securessh scenarioConf loadedCtx stSshd).st, secOps, [], none⟩) :=
  ⟨⟨by decide, by decide⟩,
   securessh_idempotent_subst scenarioConf loadedCtx stSshd (by decide) (by decide)⟩

/-! ### Chain helpers for `setup` -/

theorem andThen_of_ok (r : TaskResult) (f : Ctx → RState → TaskResult)
    (h : r.err = none) :
    andThen r f =
      ⟨(f r.ctx r.st).ctx, (f r.ctx r.st).st, r.ops ++ (f r.ctx r.st).ops,
       r.logs ++ (f r.ctx r.st).logs, (f r.ctx r.st).err⟩ := by
  simp [andThen, h]

/-- Unfolding `setup` once the configuration load is known to succeed
with the loaded scenario context. -/
theorem setup_unfold (pub : String) (c : Ctx) (st : RState) (lg : List String)
    (hc : loadconfig scenarioConf c = ⟨loadedCtx, lg, none⟩) :
    setup scenarioConf pub c st =
      (fun r => (⟨r.ctx, r.st, r.ops, lg ++ r.logs, r.err⟩ : TaskResult))
        (andThen (andThen (andThen (addadminuser scenarioConf pub loadedCtx st)
          (fun c1 s1 => securessh scenarioConf c1 s1))
          (fun c2 s2 => setupfirewall scenarioConf c2 s2))
          (fun c3 s3 => installpackages scenarioConf c3 s3)) := by
  simp [setup, hc]

theorem setupfirewall_fields (conf : ConfFile) (c : Ctx) (st : RState)
    (h : c.config_loaded = true) :
    (setupfirewall conf c st).err = none ∧ (setupfirewall conf c st).ctx = c := by
  by_cases hg : st.paths iptablesInitFile = true
  · rw [setupfirewall_skip conf c st h hg]
    exact ⟨rfl, rfl⟩
  · rw [setupfirewall_install conf c st h (by simpa using hg)]
    exact ⟨rfl, rfl⟩

theorem isAppUserOp_adminOps (u g : String) :
    ∀ o ∈ adminOps u g, isAppUserOp o = false := by
  intro o ho
  simp [adminOps] at ho
  rcases ho with h | h | h <;> subst h <;> rfl

theorem isAppUserOp_sshKeyOps (pub u : String) :
    ∀ o ∈ sshKeyOps pub u, isAppUserOp o = false := by
  intro o ho
  simp [sshKeyOps] at ho
  rcases ho with h | h | h | h <;> subst h <;> rfl

theorem isAppUserOp_addadminuser (conf : ConfFile) (pub u g : String) (c : Ctx)
    (st : RState) (h : c.config_loaded = true)
    (hu : c.vars "admin_user" = some u) (hg : c.vars "admin_group" = some g) :
    ∀ o ∈ (addadminuser conf pub c st).ops, isAppUserOp o = false := by
  rw [addadminuser_eq conf pub u g c st h hu hg]
  intro o ho
  rw [List.mem_append] at ho
  rcases ho with ho | ho
  · split at ho
    · simp at ho
    · exact isAppUserOp_adminOps u g o ho
  · split at ho
    · simp at ho
    · exact isAppUserOp_sshKeyOps pub u o ho

theorem isAppUserOp_setupfirewall (conf : ConfFile) (c : Ctx) (st : RState)
    (h : c.config_loaded = true) :
    ∀ o ∈ (setupfirewall conf c st).ops, isAppUserOp o = false := by
  by_cases hg : st.paths iptablesInitFile = true
  · rw [setupfirewall_skip conf c st h hg]
    intro o ho
    simp at ho
  · rw [setupfirewall_install conf c st h (by simpa using hg)]
    intro o ho
    revert ho
    show o ∈ firewallOps → isAppUserOp o = false
    revert o
    decide

/-- C9: the `setup` task is exactly the composition of `add-admin-user`,
`secure-ssh`, `setup-firewall`, `install-packages` in that fixed order —
its operation trace is the concatenation of theirs on the threaded
states — and no operation of `setup-app-user` (user/db creation, keypair
generation, installer staging) ever appears in it. -/
theorem setup_fixed_order (pub : String) (st : RState) :
    (setup scenarioConf pub freshCtx st).err = none ∧
    (setup scenarioConf pub freshCtx st).ops =
      (addadminuser scenarioConf pub loadedCtx st).ops ++
      ((securessh scenarioConf loadedCtx
          (addadminuser scenarioConf pub loadedCtx st).st).ops ++
       ((setupfirewall scenarioConf loadedCtx
           (securessh scenarioConf loadedCtx
             (addadminuser scenarioConf pub loadedCtx st).st).st).ops ++
        (installpackages scenarioConf loadedCtx
           (setupfirewall scenarioConf loadedCtx
             (securessh scenarioConf loadedCtx
               (addadminuser scenarioConf pub loadedCtx st).st).st).st).ops)) ∧
    (∀ o ∈ (setup scenarioConf pub freshCtx st).ops, isAppUserOp o = false) := by
  have hA := addadminuser_eq scenarioConf pub "ops" "sudo" loadedCtx st
    loadedCtx_config_loaded loadedCtx_admin_user loadedCtx_admin_group
  have hAerr : (addadminuser scenarioConf pub loadedCtx st).err = none := by
    rw [hA]
  have hActx : (addadminuser scenarioConf pub loadedCtx st).ctx = loadedCtx := by
    rw [hA]
  have hS := securessh_eq scenarioConf loadedCtx
    (addadminuser scenarioConf pub loadedCtx st).st loadedCtx_config_loaded
  have hSerr : (securessh scenarioConf loadedCtx
      (addadminuser scenarioConf pub loadedCtx st).st).err = none := by
    rw [hS]
  have hSctx : (securessh scenarioConf loadedCtx
      (addadminuser scenarioConf pub loadedCtx st).st).ctx = loadedCtx := by
    rw [hS]
  have hFw := setupfirewall_fields scenarioConf loadedCtx
    (securessh scenarioConf loadedCtx
      (addadminuser scenarioConf pub loadedCtx st).st).st loadedCtx_config_loaded
  have hP := installpackages_eq scenarioConf loadedCtx
    (setupfirewall scenarioConf loadedCtx
      (securessh scenarioConf loadedCtx
        (addadminuser scenarioConf pub loadedCtx st).st).st).st loadedCtx_config_loaded
  have hPerr : (installpackages scenarioConf loadedCtx
      (setupfirewall scenarioConf loadedCtx
        (securessh scenarioConf loadedCtx
          (addadminuser scenarioConf pub loadedCtx st).st).st).st).err = none := by
    rw [hP]
  have hops : (setup scenarioConf pub freshCtx st).err = none ∧
      (setup scenarioConf pub freshCtx st).ops =
        (addadminuser scenarioConf pub loadedCtx st).ops ++
        ((securessh scenarioConf loadedCtx
            (addadminuser scenarioConf pub loadedCtx st).st).ops ++
         ((setupfirewall scenarioConf loadedCtx
             (securessh scenarioConf loadedCtx
               (addadminuser scenarioConf pub loadedCtx st).st).st).ops ++
          (installpackages scenarioConf loadedCtx
             (setupfirewall scenarioConf loadedCtx
               (securessh scenarioConf loadedCtx
                 (addadminuser scenarioConf pub loadedCtx st).st).st).st).ops)) := by
    rw [setup_unfold pub freshCtx st _ loadconfig_fresh]
    simp only [andThen_of_ok, hAerr, hActx, hSerr, hSctx, hFw.1, hFw.2, hPerr]
    exact ⟨trivial, by simp⟩
  refine ⟨hops.1, hops.2, ?_⟩
  intro o ho
  rw [hops.2] at ho
  simp only [List.mem_append] at ho
  rcases ho with ho | ho | ho | ho
  · exact isAppUserOp_addadminuser scenarioConf pub "ops" "sudo" loadedCtx st
      loadedCtx_config_loaded loadedCtx_admin_user loadedCtx_admin_group o ho
  · rw [hS] at ho
    revert ho
    show o ∈ secOps → isAppUserOp o = false
    revert o
    decide
  · exact isAppUserOp_setupfirewall scenarioConf loadedCtx _
      loadedCtx_config_loaded o ho
  · rw [hP] at ho
    revert ho
    show o ∈ pkgOps → isAppUserOp o = false
    revert o
    decide

/-- A target state on which every `setup` guard already holds: admin user
provisioned, SSH dir present, firewall installed, sshd_config already
substituted, all packages installed.  One run of `setup` always leaves
the target in such a state. -/
def ReadySt (s : RState) : Prop :=
  s.paths "/home/ops" = true ∧ s.paths "/home/ops/.ssh" = true ∧
  s.paths iptablesInitFile = true ∧
  (∃ l0 : List String, s.files sshdPath = (l0.map sub1).map sub2) ∧
  (∀ p ∈ pkg_list, s.pkgs p = true)

/-- After `addadminuser` under the scenario configuration, the admin home
and `.ssh` directory exist, and sshd_config, the package set and the
firewall-guard path are untouched. -/
theorem admin_stage_facts (pub : String) (st : RState) :
    (addadminuser scenarioConf pub loadedCtx st).st.paths "/home/ops" = true ∧
    (addadminuser scenarioConf pub loadedCtx st).st.paths "/home/ops/.ssh" = true ∧
    (addadminuser scenarioConf pub loadedCtx st).st.files sshdPath = st.files sshdPath ∧
    (addadminuser scenarioConf pub loadedCtx st).st.pkgs = st.pkgs ∧
    (addadminuser scenarioConf pub loadedCtx st).st.paths iptablesInitFile =
      st.paths iptablesInitFile := by
  rw [addadminuser_eq scenarioConf pub "ops" "sudo" loadedCtx st
    loadedCtx_config_loaded loadedCtx_admin_user loadedCtx_admin_group]
  by_cases hHome : st.paths "/home/ops" = true <;>
    by_cases hSsh : st.paths "/home/ops/.ssh" = true <;>
      simp [hHome, hSsh, runOps, adminOps, sshKeyOps, applyOp, Cmd.apply, setTrue,
            sshdPath, iptablesInitFile]

/-- After `setupfirewall`, the firewall init script exists; sshd_config
and the package set are untouched and existing paths persist. -/
theorem firewall_stage_facts (s : RState) :
    (setupfirewall scenarioConf loadedCtx s).st.paths iptablesInitFile = true ∧
    (setupfirewall scenarioConf loadedCtx s).st.files sshdPath = s.files sshdPath ∧
    (setupfirewall scenarioConf loadedCtx s).st.pkgs = s.pkgs ∧
    (∀ p, s.paths p = true →
      (setupfirewall scenarioConf loadedCtx s).st.paths p = true) := by
  by_cases hg : s.paths iptablesInitFile = true
  · rw [setupfirewall_skip scenarioConf loadedCtx s loadedCtx_config_loaded hg]
    exact ⟨hg, rfl, rfl, fun p hp => hp⟩
  · rw [setupfirewall_install scenarioConf loadedCtx s loadedCtx_config_loaded
      (by simpa using hg)]
    refine ⟨?_, ?_, ?_, ?_⟩
    · simp [runOps, firewallOps, applyOp, Cmd.apply, setTrue, iptablesInitFile]
    · simp [runOps, firewallOps, applyOp, Cmd.apply, setTrue, sshdPath,
            iptablesInitFile]
    · simp [runOps, firewallOps, applyOp, Cmd.apply, setTrue]
    · intro p hp
      exact runOps_paths_mono firewallOps s hp

/-- After `installpackages`, every declared package is installed; paths
and files are untouched. -/
theorem install_stage_facts (s : RState) :
    (installpackages scenarioConf loadedCtx s).st.paths = s.paths ∧
    (installpackages scenarioConf loadedCtx s).st.files = s.files ∧
    (∀ p ∈ pkg_list, (installpackages scenarioConf loadedCtx s).st.pkgs p = true) := by
  rw [installpackages_eq scenarioConf loadedCtx s loadedCtx_config_loaded]
  have heq : runOps s pkgOps = runOps s (pkg_list.map install_package) := by
    simp [pkgOps, runOps, applyOp, Cmd.apply]
  refine ⟨?_, ?_, ?_⟩
  · simp only [heq]
    exact (runOps_installs_frame pkg_list s).1
  · simp only [heq]
    exact (runOps_installs_frame pkg_list s).2.2.2
  · intro p hp
    simp only [heq]
    rw [runOps_installs_pkgs]
    simp [hp]

/-- `setup` from the fresh scenario context succeeds with the loaded
context, its final state being the four tasks' states threaded in
order. -/
theorem setup_fields (pub : String) (st : RState) :
    (setup scenarioConf pub freshCtx st).err = none ∧
    (setup scenarioConf pub freshCtx st).ctx = loadedCtx ∧
    (setup scenarioConf pub freshCtx st).st =
      (installpackages scenarioConf loadedCtx
        (setupfirewall scenarioConf loadedCtx
          (securessh scenarioConf loadedCtx
            (addadminuser scenarioConf pub loadedCtx st).st).st).st).st := by
  have hA := addadminuser_eq scenarioConf pub "ops" "sudo" loadedCtx st
    loadedCtx_config_loaded loadedCtx_admin_user loadedCtx_admin_group
  have hAerr : (addadminuser scenarioConf pub loadedCtx st).err = none := by
    rw [hA]
  have hActx : (addadminuser scenarioConf pub loadedCtx st).ctx = loadedCtx := by
    rw [hA]
  have hS := securessh_eq scenarioConf loadedCtx
    (addadminuser scenarioConf pub loadedCtx st).st loadedCtx_config_loaded
  have hSerr : (securessh scenarioConf loadedCtx
      (addadminuser scenarioConf pub loadedCtx st).st).err = none := by
    rw [hS]
  have hSctx : (securessh scenarioConf loadedCtx
      (addadminuser scenarioConf pub loadedCtx st).st).ctx = loadedCtx := by
    rw [hS]
  have hFw := setupfirewall_fields scenarioConf loadedCtx
    (securessh scenarioConf loadedCtx
      (addadminuser scenarioConf pub loadedCtx st).st).st loadedCtx_config_loaded
  have hP := installpackages_eq scenarioConf loadedCtx
    (setupfirewall scenarioConf loadedCtx
      (securessh scenarioConf loadedCtx
        (addadminuser scenarioConf pub loadedCtx st).st).st).st loadedCtx_config_loaded
  have hPerr : (installpackages scenarioConf loadedCtx
      (setupfirewall scenarioConf loadedCtx
        (securessh scenarioConf loadedCtx
          (addadminuser scenarioConf pub loadedCtx st).st).st).st).err = none := by
    rw [hP]
  have hPctx : (installpackages scenarioConf loadedCtx
      (setupfirewall scenarioConf loadedCtx
        (securessh scenarioConf loadedCtx
          (addadminuser scenarioConf pub loadedCtx st).st).st).st).ctx = loadedCtx := by
    rw [hP]
  rw [setup_unfold pub freshCtx st _ loadconfig_fresh]
  simp only [andThen_of_ok, hAerr, hActx, hSerr, hSctx, hFw.1, hFw.2, hPerr, hPctx]
  refine ⟨by trivial, by trivial, by trivial⟩

/-- On a target where every guard already holds, `setup` changes nothing:
it only re-runs the two unconditional tasks (`secure-ssh`,
`install-packages`), whose operations have no effect on such a state. -/
theorem setup_noop (pub : String) (s : RState) (hr : ReadySt s) :
    (setup scenarioConf pub loadedCtx s).err = none ∧
    (setup scenarioConf pub loadedCtx s).ctx = loadedCtx ∧
    (setup scenarioConf pub loadedCtx s).st = s ∧
    (setup scenarioConf pub loadedCtx s).ops = secOps ++ pkgOps := by
  obtain ⟨h1, h2, h3, ⟨l0, h4⟩, h5⟩ := hr
  have hT1 : addadminuser scenarioConf pub loadedCtx s =
      ⟨loadedCtx, s, [], ["ops user already exists",
        "ops ssh dir exists, not doing anything"], none⟩ := by
    rw [addadminuser_eq scenarioConf pub "ops" "sudo" loadedCtx s
      loadedCtx_config_loaded loadedCtx_admin_user loadedCtx_admin_group]
    simp [h1, h2, runOps]
  have hmap : ((s.files sshdPath).map sub1).map sub2 = s.files sshdPath := by
    rw [h4]
    exact map_sub_fixed l0
  have hT2 : securessh scenarioConf loadedCtx s = ⟨loadedCtx, s, secOps, [], none⟩ := by
    rw [securessh_eq scenarioConf loadedCtx s loadedCtx_config_loaded]
    have hstq : { s with
        files := fun q =>
          if q = sshdPath then ((s.files sshdPath).map sub1).map sub2
          else s.files q } = s := by
      apply RState.ext <;> try rfl
      funext q
      by_cases hq : q = sshdPath
      · simp [hq, hmap]
      · simp [hq]
    rw [hstq]
  have hT3 : setupfirewall scenarioConf loadedCtx s =
      ⟨loadedCtx, s, [], ["firewall file already exists, doing nothing"], none⟩ :=
    setupfirewall_skip scenarioConf loadedCtx s loadedCtx_config_loaded h3
  have hT4st : runOps s pkgOps = s := by
    have heq : runOps s pkgOps = runOps s (pkg_list.map install_package) := by
      simp [pkgOps, runOps, applyOp, Cmd.apply]
    rw [heq]
    exact runOps_installs_noop pkg_list s h5
  have hT4 := installpackages_eq scenarioConf loadedCtx s loadedCtx_config_loaded
  rw [hT4st] at hT4
  rw [setup_unfold pub loadedCtx s []
    (loadconfig_of_loaded scenarioConf loadedCtx loadedCtx_config_loaded)]
  simp only [andThen_of_ok, hT1, hT2, hT3, hT4]
  refine ⟨by trivial, by trivial, by trivial, by simp⟩

/-- One run of `setup` from the fresh scenario context always leaves the
target in a `ReadySt` state: all guards hold afterwards. -/
theorem setup_ready (pub : String) (st : RState) :
    ReadySt (setup scenarioConf pub freshCtx st).st := by
  obtain ⟨-, -, hst⟩ := setup_fields pub st
  rw [hst]
  obtain ⟨hA1, hA2, hA3, hA4, hA5⟩ := admin_stage_facts pub st
  have hS := securessh_eq scenarioConf loadedCtx
    (addadminuser scenarioConf pub loadedCtx st).st loadedCtx_config_loaded
  have hSpaths : (securessh scenarioConf loadedCtx
      (addadminuser scenarioConf pub loadedCtx st).st).st.paths =
      (addadminuser scenarioConf pub loadedCtx st).st.paths := by
    rw [hS]
  have hSfiles : (securessh scenarioConf loadedCtx
      (addadminuser scenarioConf pub loadedCtx st).st).st.files sshdPath =
      (((addadminuser scenarioConf pub loadedCtx st).st.files sshdPath).map
        sub1).map sub2 := by
    rw [hS]
    simp
  obtain ⟨hF1, hF2, hF3, hF4⟩ := firewall_stage_facts
    (securessh scenarioConf loadedCtx
      (addadminuser scenarioConf pub loadedCtx st).st).st
  obtain ⟨hI1, hI2, hI3⟩ := install_stage_facts
    (setupfirewall scenarioConf loadedCtx
      (securessh scenarioConf loadedCtx
        (addadminuser scenarioConf pub loadedCtx st).st).st).st
  refine ⟨?_, ?_, ?_, ⟨st.files sshdPath, ?_⟩, ?_⟩
  · rw [hI1]
    exact hF4 _ (by rw [hSpaths]; exact hA1)
  · rw [hI1]
    exact hF4 _ (by rw [hSpaths]; exact hA2)
  · rw [hI1]
    exact hF1
  · rw [hI2, hF2, hSfiles, hA3]
  · exact hI3

/-- C1: running `setup` twice against the same target (through the fake
RemoteExecutor whose state persists across invocations) produces the same
end state as running it once: the second run succeeds, changes neither
the context nor the target state, and issues only the unconditional
`secure-ssh` and `install-packages` operations — no second user
creation, no second sshd_config edit taking effect, no second firewall
install. -/
theorem setup_idempotent (pub : String) (st : RState) :
    (setup scenarioConf pub freshCtx st).err = none ∧
    (setup scenarioConf pub (setup scenarioConf pub freshCtx st).ctx
        (setup scenarioConf pub freshCtx st).st).err = none ∧
    (setup scenarioConf pub (setup scenarioConf pub freshCtx st).ctx
        (setup scenarioConf pub freshCtx st).st).ctx =
      (setup scenarioConf pub freshCtx st).ctx ∧
    (setup scenarioConf pub (setup scenarioConf pub freshCtx st).ctx
        (setup scenarioConf pub freshCtx st).st).st =
      (setup scenarioConf pub freshCtx st).st ∧
    (setup scenarioConf pub (setup scenarioConf pub freshCtx st).ctx
        (setup scenarioConf pub freshCtx st).st).ops = secOps ++ pkgOps := by
  obtain ⟨he, hc, -⟩ := setup_fields pub st
  have hready := setup_ready pub st
  rw [hc]
  obtain ⟨hn1, hn2, hn3, hn4⟩ := setup_noop pub _ hready
  exact ⟨he, hn1, hn2, hn3, hn4⟩

end Deployer
